import Mathlib

/-
Verification of the commit-reveal client in app.py.

The program is a small Streamlit application.  Its protocol core is:
  - compute_sha256(uni_id, number, nonce): builds the preimage string
    f"{uni_id}|{number}|{nonce}" and returns (preimage, sha256 hex digest
    of its UTF-8 bytes);
  - commit_to_api / reveal_to_api: build the JSON payloads posted to the
    two endpoints;
  - the commit_clicked / reveal_clicked handlers: validate inputs, check
    the configured URL, invoke the builder (commit phase only), display
    results, issue at most one HTTP request and classify the response.

We embed these shallowly.  Machine words of SHA-256 are Nat with explicit
reduction modulo 2^32.  strings are Lean String; UTF-8 encoding and SHA-256
are defined from their standards, mirroring hashlib and str.encode.  The
network is an oracle argument (Except String HttpResponse): the outcome the
single possible POST would have.  Handlers return the outcome, the list of
strings displayed, the list of HTTP requests issued and the list of calls
made to the commitment builder.
-/

namespace App

/-- Truncation to a 32-bit word, the implicit wrap-around of SHA-256 word
arithmetic (Python hashlib works on 32-bit words internally). -/
def w32 (n : Nat) : Nat := n % 4294967296

/-- Right rotation of a 32-bit word. -/
def rotr (k x : Nat) : Nat := w32 ((x >>> k) ||| (x <<< (32 - k)))

/-- Bitwise complement of a 32-bit word. -/
def notw (x : Nat) : Nat := x ^^^ 4294967295

/-- SHA-256 Ch function. -/
def chFn (x y z : Nat) : Nat := (x &&& y) ^^^ (notw x &&& z)

/-- SHA-256 Maj function. -/
def majFn (x y z : Nat) : Nat := (x &&& y) ^^^ (x &&& z) ^^^ (y &&& z)

/-- SHA-256 big Sigma 0. -/
def bigSigma0 (x : Nat) : Nat := rotr 2 x ^^^ rotr 13 x ^^^ rotr 22 x

/-- SHA-256 big Sigma 1. -/
def bigSigma1 (x : Nat) : Nat := rotr 6 x ^^^ rotr 11 x ^^^ rotr 25 x

/-- SHA-256 small sigma 0. -/
def smallSigma0 (x : Nat) : Nat := rotr 7 x ^^^ rotr 18 x ^^^ (x >>> 3)

/-- SHA-256 small sigma 1. -/
def smallSigma1 (x : Nat) : Nat := rotr 17 x ^^^ rotr 19 x ^^^ (x >>> 10)

/-- The 64 SHA-256 round constants of FIPS 180-4, written in decimal. -/
def sha256K : List Nat :=
  [1116352408, 1899447441, 3049323471, 3921009573, 961987163, 1508970993,
   2453635748, 2870763221, 3624381080, 310598401, 607225278, 1426881987,
   1925078388, 2162078206, 2614888103, 3248222580, 3835390401, 4022224774,
   264347078, 604807628, 770255983, 1249150122, 1555081692, 1996064986,
   2554220882, 2821834349, 2952996808, 3210313671, 3336571891, 3584528711,
   113926993, 338241895, 666307205, 773529912, 1294757372, 1396182291,
   1695183700, 1986661051, 2177026350, 2456956037, 2730485921, 2820302411,
   3259730800, 3345764771, 3516065817, 3600352804, 4094571909, 275423344,
   430227734, 506948616, 659060556, 883997877, 958139571, 1322822218,
   1537002063, 1747873779, 1955562222, 2024104815, 2227730452, 2361852424,
   2428436474, 2756734187, 3204031479, 3329325298]

/-- The SHA-256 working state: eight 32-bit words. -/
structure Sha256State where
  a : Nat
  b : Nat
  c : Nat
  d : Nat
  e : Nat
  f : Nat
  g : Nat
  h : Nat
deriving DecidableEq, Repr

/-- The SHA-256 initial hash value of FIPS 180-4, written in decimal. -/
def sha256Init : Sha256State :=
  ⟨1779033703, 3144134277, 1013904242, 2773480762,
   1359893119, 2600822924, 528734635, 1541459225⟩

/-- Word i of a 64-byte block, big-endian. -/
def beWord (block : List Nat) (i : Nat) : Nat :=
  (block.getD (4 * i) 0) <<< 24 ||| (block.getD (4 * i + 1) 0) <<< 16 |||
  (block.getD (4 * i + 2) 0) <<< 8 ||| block.getD (4 * i + 3) 0

/-- Entry i of the message schedule given the earlier entries. -/
def schedAt (block : List Nat) (prev : List Nat) (i : Nat) : Nat :=
  if i < 16 then beWord block i
  else w32 (smallSigma1 (prev.getD (i - 2) 0) + prev.getD (i - 7) 0 +
            smallSigma0 (prev.getD (i - 15) 0) + prev.getD (i - 16) 0)

/-- The first n entries of the SHA-256 message schedule of a block. -/
def schedule (block : List Nat) : Nat → List Nat
  | 0 => []
  | n + 1 =>
    let prev := schedule block n
    prev ++ [schedAt block prev n]

/-- One SHA-256 compression round. -/
def roundStep (w k : Nat) (s : Sha256State) : Sha256State :=
  let t1 := w32 (s.h + bigSigma1 s.e + chFn s.e s.f s.g + k + w)
  let t2 := w32 (bigSigma0 s.a + majFn s.a s.b s.c)
  { a := w32 (t1 + t2), b := s.a, c := s.b, d := s.c,
    e := w32 (s.d + t1), f := s.e, g := s.f, h := s.g }

/-- Compress one 64-byte block into the state. -/
def compress (s : Sha256State) (block : List Nat) : Sha256State :=
  let w := schedule block 64
  let t := (List.range 64).foldl (fun st i => roundStep (w.getD i 0) (sha256K.getD i 0) st) s
  { a := w32 (s.a + t.a), b := w32 (s.b + t.b), c := w32 (s.c + t.c), d := w32 (s.d + t.d),
    e := w32 (s.e + t.e), f := w32 (s.f + t.f), g := w32 (s.g + t.g), h := w32 (s.h + t.h) }

/-- The 8 big-endian bytes of the 64-bit message bit length. -/
def lengthBytes (len : Nat) : List Nat :=
  (List.range 8).map (fun i => ((len * 8) >>> (56 - 8 * i)) % 256)

/-- SHA-256 padding: append 0x80, zeros to 56 mod 64, then the bit length. -/
def padMessage (msg : List Nat) : List Nat :=
  msg ++ 128 :: List.replicate ((119 - msg.length % 64) % 64) 0 ++ lengthBytes msg.length

/-- Compress the given number of 64-byte blocks of the message. -/
def processBlocks : Nat → Sha256State → List Nat → Sha256State
  | 0, s, _ => s
  | n + 1, s, msg => processBlocks n (compress s (msg.take 64)) (msg.drop 64)

/-- The SHA-256 digest of a byte sequence, as the final state. -/
def sha256 (msg : List Nat) : Sha256State :=
  let p := padMessage msg
  processBlocks (p.length / 64) sha256Init p

/-- Lowercase hexadecimal digit of a value below 16 (0-9 then a-f). -/
def hexDigitChar (n : Nat) : Char :=
  if n < 10 then Char.ofNat (48 + n) else Char.ofNat (87 + n)

/-- The 8 lowercase hex characters of a 32-bit word, most significant first. -/
def wordHex (w : Nat) : List Char :=
  (List.range 8).map (fun i => hexDigitChar ((w >>> (28 - 4 * i)) % 16))

/-- The eight words of the digest, in output order. -/
def digestWords (s : Sha256State) : List Nat := [s.a, s.b, s.c, s.d, s.e, s.f, s.g, s.h]

/-- hashlib hexdigest: the digest encoded as lowercase hexadecimal. -/
def sha256Hex (msg : List Nat) : String :=
  String.mk ((digestWords (sha256 msg)).map wordHex).flatten

/-- UTF-8 encoding of one code point, as in str.encode of Python. -/
def utf8Char (c : Char) : List Nat :=
  let n := c.toNat
  if n < 128 then [n]
  else if n < 2048 then [192 ||| (n >>> 6), 128 ||| (n &&& 63)]
  else if n < 65536 then
    [224 ||| (n >>> 12), 128 ||| ((n >>> 6) &&& 63), 128 ||| (n &&& 63)]
  else
    [240 ||| (n >>> 18), 128 ||| ((n >>> 12) &&& 63), 128 ||| ((n >>> 6) &&& 63), 128 ||| (n &&& 63)]

/-- UTF-8 byte encoding of a string, as in preimage.encode in app.py. -/
def utf8Encode (s : String) : List Nat := (s.data.map utf8Char).flatten

/-- app.py compute_sha256: build preimage = f-string of uni_id, number, nonce
joined by the bar delimiter, and hash its UTF-8 bytes with SHA-256.
Returns (preimage, hash_hex).  The Python f-string renders the int in
decimal, which toString on Int matches. -/
def compute_sha256 (uni_id : String) (number : Int) (nonce : String) : String × String :=
  let preimage := uni_id ++ "|" ++ toString number ++ "|" ++ nonce
  (preimage, sha256Hex (utf8Encode preimage))

/-- A JSON scalar appearing in the request payloads of app.py. -/
inductive JsonValue where
  | str (s : String)
  | int (n : Int)
deriving DecidableEq, Repr

/-- An HTTP POST request as issued by requests.post: the URL and the JSON
body, an object given as its ordered field list. -/
structure HttpRequest where
  url : String
  body : List (String × JsonValue)
deriving DecidableEq, Repr

/-- An HTTP response as seen through the requests library: status code and
body text. -/
structure HttpResponse where
  statusCode : Nat
  text : String
deriving DecidableEq, Repr

/-- The requests library: response.ok is true exactly when status_code is
below 400. -/
def HttpResponse.ok (r : HttpResponse) : Bool := r.statusCode < 400

/-- app.py commit_to_api: the request posting the payload with fields
uni_id and commit to the commit URL. -/
def commit_to_api (commit_url uni_id commit_hash : String) : HttpRequest :=
  { url := commit_url,
    body := [("uni_id", JsonValue.str uni_id), ("commit", JsonValue.str commit_hash)] }

/-- app.py reveal_to_api: the request posting the payload with fields
uni_id, number and nonce to the reveal URL. -/
def reveal_to_api (reveal_url uni_id : String) (number : Int) (nonce : String) : HttpRequest :=
  { url := reveal_url,
    body := [("uni_id", JsonValue.str uni_id), ("number", JsonValue.int number),
             ("nonce", JsonValue.str nonce)] }

/-- Outcome of one button handler run, following the error taxonomy. -/
inductive Outcome where
  | validationError (msg : String)
  | configurationError (msg : String)
  | success
  | apiError (statusCode : Nat) (body : String)
  | networkError (msg : String)
deriving DecidableEq, Repr

/-- Everything observable about one handler run: the classified outcome, the
strings rendered to the results area, the HTTP requests issued, and the
argument triples passed to compute_sha256. -/
structure HandlerResult where
  outcome : Outcome
  displayed : List String
  requests : List HttpRequest
  builderCalls : List (String × Int × String)
deriving DecidableEq, Repr

/-- The validation error message of both handlers. -/
def validationMsg : String := "Merci de remplir NEOMA ID et nonce."

/-- The API error message, built from status code and body text. -/
def apiErrorMsg (statusCode : Nat) (text : String) : String :=
  "Erreur de l API (status " ++ toString statusCode ++ "). Reponse : " ++ text

/-- app.py commit_clicked handler.  Validation first (not uni_id or
nonce == two quotes), then the COMMIT_URL check, then the hash is computed
and displayed, then the POST; the response of the single possible POST is
the oracle argument net, an exception in requests.post becoming the error
case. -/
def commit_clicked (uni_id : String) (number : Int) (nonce : String)
    (commitUrl : String) (net : Except String HttpResponse) : HandlerResult :=
  if uni_id = "" ∨ nonce = "" then
    { outcome := Outcome.validationError validationMsg,
      displayed := [validationMsg], requests := [], builderCalls := [] }
  else if commitUrl = "" then
    { outcome := Outcome.configurationError "COMMIT_URL introuvable. Verifie ton info.txt.",
      displayed := ["COMMIT_URL introuvable. Verifie ton info.txt."],
      requests := [], builderCalls := [] }
  else
    let pc := compute_sha256 uni_id number nonce
    let shown := ["Commit Phase", "Preimage utilise pour le hash :", pc.1,
                  "SHA-256 hash :", pc.2]
    let req := commit_to_api commitUrl uni_id pc.2
    match net with
    | Except.ok response =>
      if response.ok then
        { outcome := Outcome.success,
          displayed := shown ++ ["Commit envoye avec succes a l API."],
          requests := [req], builderCalls := [(uni_id, number, nonce)] }
      else
        { outcome := Outcome.apiError response.statusCode response.text,
          displayed := shown ++ [apiErrorMsg response.statusCode response.text],
          requests := [req], builderCalls := [(uni_id, number, nonce)] }
    | Except.error e =>
      { outcome := Outcome.networkError e,
        displayed := shown ++ ["Erreur lors de l appel API de commit : " ++ e],
        requests := [req], builderCalls := [(uni_id, number, nonce)] }

/-- app.py reveal_clicked handler: same validation and URL check, no hash,
a POST of the raw triple, and on success the response text is displayed. -/
def reveal_clicked (uni_id : String) (number : Int) (nonce : String)
    (revealUrl : String) (net : Except String HttpResponse) : HandlerResult :=
  if uni_id = "" ∨ nonce = "" then
    { outcome := Outcome.validationError validationMsg,
      displayed := [validationMsg], requests := [], builderCalls := [] }
  else if revealUrl = "" then
    { outcome := Outcome.configurationError "REVEAL_URL introuvable. Verifie ton info.txt.",
      displayed := ["REVEAL_URL introuvable. Verifie ton info.txt."],
      requests := [], builderCalls := [] }
  else
    let req := reveal_to_api revealUrl uni_id number nonce
    match net with
    | Except.ok response =>
      if response.ok then
        { outcome := Outcome.success,
          displayed := ["Reveal Phase", "Reveal envoye avec succes a l API.",
                        "Message de confirmation de l API :", response.text],
          requests := [req], builderCalls := [] }
      else
        { outcome := Outcome.apiError response.statusCode response.text,
          displayed := ["Reveal Phase", apiErrorMsg response.statusCode response.text],
          requests := [req], builderCalls := [] }
    | Except.error e =>
      { outcome := Outcome.networkError e,
        displayed := ["Reveal Phase", "Erreur lors de l appel API de reveal : " ++ e],
        requests := [req], builderCalls := [] }

/-- The streamlit number widget of app.py line 100, declared with
min_value 0, max_value 100 and integer step: the widget only ever yields a
value in [0, 100], so an out-of-range value never reaches the handler. -/
def number_input (requested : Int) : Option Int :=
  if 0 ≤ requested ∧ requested ≤ 100 then some requested else none

/-- The commit path as reachable through the UI: the number passes through
the bounded widget before the handler can run. -/
def commitPipeline (uni_id : String) (requested : Int) (nonce commitUrl : String)
    (net : Except String HttpResponse) : Option HandlerResult :=
  (number_input requested).map (fun n => commit_clicked uni_id n nonce commitUrl net)

/-- The compute_sha256 invocations made by the commit path; none when the
widget rejects the number. -/
def pipelineBuilderCalls (uni_id : String) (requested : Int) (nonce commitUrl : String)
    (net : Except String HttpResponse) : List (String × Int × String) :=
  match commitPipeline uni_id requested nonce commitUrl net with
  | none => []
  | some r => r.builderCalls

/-- Test of a lowercase hexadecimal character: a decimal digit or a letter
from a to f. -/
def isLowerHexChar (c : Char) : Bool :=
  (48 ≤ c.toNat && c.toNat ≤ 57) || (97 ≤ c.toNat && c.toNat ≤ 102)

set_option maxRecDepth 100000

/-- A word renders to exactly 8 hex characters. -/
lemma wordHex_length (w : Nat) : (wordHex w).length = 8 := by
  simp [wordHex]

/-- Every value below 16 renders to a lowercase hex character. -/
lemma hexDigitChar_lowerHex : ∀ m, m < 16 → isLowerHexChar (hexDigitChar m) = true := by
  decide

/-- Every character a word renders to is a lowercase hex character. -/
lemma wordHex_chars (w : Nat) : ∀ c ∈ wordHex w, isLowerHexChar c = true := by
  intro c hc
  simp only [wordHex, List.mem_map, List.mem_range] at hc
  obtain ⟨i, _, rfl⟩ := hc
  exact hexDigitChar_lowerHex _ (Nat.mod_lt _ (by decide))

/-- The hex digest of any message has exactly 64 characters. -/
lemma sha256Hex_length (msg : List Nat) : (sha256Hex msg).length = 64 := by
  simp [sha256Hex, String.length, digestWords, wordHex_length]

/-- Every character of the hex digest of any message is lowercase hex. -/
lemma sha256Hex_chars (msg : List Nat) :
    ((sha256Hex msg).data.all isLowerHexChar) = true := by
  rw [List.all_eq_true]
  intro c hc
  have hdata : (sha256Hex msg).data = ((digestWords (sha256 msg)).map wordHex).flatten := rfl
  rw [hdata, List.mem_flatten] at hc
  obtain ⟨l, hl, hcl⟩ := hc
  rw [List.mem_map] at hl
  obtain ⟨w, _, rfl⟩ := hl
  exact wordHex_chars w c hcl

/-- C1: for every identity string, integer number and nonce string,
compute_sha256 returns a preimage equal to the identity, a bar, the decimal
representation of the number, a bar, and the nonce, concatenated with
nothing else, and a commitment equal to the lowercase hexadecimal encoding
of the SHA-256 digest of the UTF-8 byte encoding of that preimage. -/
theorem C1_preimage_and_commitment (uni_id : String) (number : Int) (nonce : String) :
    (compute_sha256 uni_id number nonce).1 =
      uni_id ++ "|" ++ toString number ++ "|" ++ nonce ∧
    (compute_sha256 uni_id number nonce).2 =
      sha256Hex (utf8Encode (uni_id ++ "|" ++ toString number ++ "|" ++ nonce)) :=
  ⟨rfl, rfl⟩

/-- C2: on identity u123, number 42, nonce pw, compute_sha256 returns the
preimage u123|42|pw and the pinned 64-character SHA-256 hex digest of that
string. -/
theorem C2_golden_example :
    compute_sha256 "u123" 42 "pw" =
      ("u123|42|pw", "dbf56702b248a74580a22e0b1bfe6a084885d9a3453dc18fe53ba86abc27f5c2") ∧
    ("dbf56702b248a74580a22e0b1bfe6a084885d9a3453dc18fe53ba86abc27f5c2" : String).length = 64 := by
  exact ⟨by decide, by decide⟩

/-- C3: compute_sha256 is deterministic: identical input triples yield
identical preimage and commitment pairs; the result depends on nothing
else. -/
theorem C3_deterministic (id1 id2 : String) (n1 n2 : Int) (c1 c2 : String)
    (hi : id1 = id2) (hn : n1 = n2) (hc : c1 = c2) :
    compute_sha256 id1 n1 c1 = compute_sha256 id2 n2 c2 := by
  rw [hi, hn, hc]

/-- Witness for C3 at a concrete triple. -/
theorem C3_deterministic_witness :
    compute_sha256 "u123" 42 "pw" = compute_sha256 "u123" 42 "pw" :=
  C3_deterministic "u123" "u123" 42 42 "pw" "pw" rfl rfl rfl

/-- C4: with an empty identity, or an empty nonce, both handlers signal the
validation error and issue zero HTTP requests, for every number, URL and
network oracle. -/
theorem C4_validation_gating (uni_id : String) (number : Int) (nonce url : String)
    (net : Except String HttpResponse) :
    ((commit_clicked "" number nonce url net).outcome = Outcome.validationError validationMsg ∧
      (commit_clicked "" number nonce url net).requests = []) ∧
    ((commit_clicked uni_id number "" url net).outcome = Outcome.validationError validationMsg ∧
      (commit_clicked uni_id number "" url net).requests = []) ∧
    ((reveal_clicked "" number nonce url net).outcome = Outcome.validationError validationMsg ∧
      (reveal_clicked "" number nonce url net).requests = []) ∧
    ((reveal_clicked uni_id number "" url net).outcome = Outcome.validationError validationMsg ∧
      (reveal_clicked uni_id number "" url net).requests = []) := by
  refine ⟨⟨?_, ?_⟩, ⟨?_, ?_⟩, ⟨?_, ?_⟩, ⟨?_, ?_⟩⟩ <;>
    simp [commit_clicked, reveal_clicked]

/-- C5 as stated is false on the code: a 304 response is not a 2xx status,
yet the commit handler classifies it as Success, because the ok test of the
requests library accepts every status below 400. -/
theorem C5_counterexample :
    (commit_clicked "u1" 50 "secret" "http://commit"
        (Except.ok (HttpResponse.mk 304 "not modified"))).outcome = Outcome.success ∧
    ¬ (200 ≤ 304 ∧ 304 ≤ 299) := by
  exact ⟨rfl, by decide⟩

/-- C5 amended: both handlers classify a received response as Success
exactly when its status code is below 400 (the ok test of the requests
library), as ApiError carrying the status code and body for every status
of 400 or more, and classify a transport failure as NetworkError carrying
the failure description. -/
theorem C5_amended_classification (uni_id : String) (number : Int) (nonce url : String)
    (r : HttpResponse) (e : String)
    (hid : uni_id ≠ "") (hnonce : nonce ≠ "") (hurl : url ≠ "") :
    ((commit_clicked uni_id number nonce url (Except.ok r)).outcome =
      if r.statusCode < 400 then Outcome.success else Outcome.apiError r.statusCode r.text) ∧
    (commit_clicked uni_id number nonce url (Except.error e)).outcome =
      Outcome.networkError e ∧
    ((reveal_clicked uni_id number nonce url (Except.ok r)).outcome =
      if r.statusCode < 400 then Outcome.success else Outcome.apiError r.statusCode r.text) ∧
    (reveal_clicked uni_id number nonce url (Except.error e)).outcome =
      Outcome.networkError e := by
  by_cases hok : r.statusCode < 400 <;>
    simp [commit_clicked, reveal_clicked, HttpResponse.ok, hid, hnonce, hurl, hok]

/-- Witness for C5 amended at a concrete run. -/
theorem C5_amended_classification_witness :
    ((commit_clicked "u1" 50 "secret" "http://commit"
        (Except.ok (HttpResponse.mk 200 "ok"))).outcome =
      if 200 < 400 then Outcome.success else Outcome.apiError 200 "ok") ∧
    (commit_clicked "u1" 50 "secret" "http://commit" (Except.error "timeout")).outcome =
      Outcome.networkError "timeout" ∧
    ((reveal_clicked "u1" 50 "secret" "http://commit"
        (Except.ok (HttpResponse.mk 200 "ok"))).outcome =
      if 200 < 400 then Outcome.success else Outcome.apiError 200 "ok") ∧
    (reveal_clicked "u1" 50 "secret" "http://commit" (Except.error "timeout")).outcome =
      Outcome.networkError "timeout" :=
  C5_amended_classification "u1" 50 "secret" "http://commit" (HttpResponse.mk 200 "ok")
    "timeout" (by decide) (by decide) (by decide)

/-- C6: once validation passes, the commit handler issues exactly one
request whose body is the two-field object uni_id, commit (the hex
commitment), and the reveal handler issues exactly one request whose body
is the three-field object uni_id, number, nonce carrying the raw values,
whatever the network outcome. -/
theorem C6_payload_shape (uni_id : String) (number : Int) (nonce url : String)
    (net : Except String HttpResponse)
    (hid : uni_id ≠ "") (hnonce : nonce ≠ "") (hurl : url ≠ "") :
    (commit_clicked uni_id number nonce url net).requests =
      [HttpRequest.mk url
        [("uni_id", JsonValue.str uni_id),
         ("commit", JsonValue.str (compute_sha256 uni_id number nonce).2)]] ∧
    (reveal_clicked uni_id number nonce url net).requests =
      [HttpRequest.mk url
        [("uni_id", JsonValue.str uni_id), ("number", JsonValue.int number),
         ("nonce", JsonValue.str nonce)]] := by
  cases net with
  | ok r =>
    by_cases hok : r.ok <;>
      simp [commit_clicked, reveal_clicked, commit_to_api, reveal_to_api, hid, hnonce, hurl, hok]
  | error e =>
    simp [commit_clicked, reveal_clicked, commit_to_api, reveal_to_api, hid, hnonce, hurl]

/-- Witness for C6 at a concrete run. -/
theorem C6_payload_shape_witness :
    (commit_clicked "u1" 7 "pw" "http://commit" (Except.error "down")).requests =
      [HttpRequest.mk "http://commit"
        [("uni_id", JsonValue.str "u1"),
         ("commit", JsonValue.str (compute_sha256 "u1" 7 "pw").2)]] ∧
    (reveal_clicked "u1" 7 "pw" "http://commit" (Except.error "down")).requests =
      [HttpRequest.mk "http://commit"
        [("uni_id", JsonValue.str "u1"), ("number", JsonValue.int 7),
         ("nonce", JsonValue.str "pw")]] :=
  C6_payload_shape "u1" 7 "pw" "http://commit" (Except.error "down")
    (by decide) (by decide) (by decide)

/-- C7: for every input triple the commitment is a string of exactly 64
characters, each a lowercase hexadecimal digit. -/
theorem C7_commitment_format (uni_id : String) (number : Int) (nonce : String) :
    ((compute_sha256 uni_id number nonce).2).length = 64 ∧
    ((compute_sha256 uni_id number nonce).2).data.all isLowerHexChar = true :=
  ⟨sha256Hex_length _, sha256Hex_chars _⟩

/-- C8: an out-of-range number is stopped by the bounded widget before the
handler runs, so compute_sha256 is never invoked on it, while 0 and 100
pass the widget and produce well-formed 64-character lowercase hex
commitments. -/
theorem C8_number_bounds (uni_id nonce url : String) (requested : Int)
    (net : Except String HttpResponse)
    (hout : requested < 0 ∨ 100 < requested) :
    commitPipeline uni_id requested nonce url net = none ∧
    pipelineBuilderCalls uni_id requested nonce url net = [] ∧
    number_input 0 = some 0 ∧
    number_input 100 = some 100 ∧
    (((compute_sha256 uni_id 0 nonce).2).length = 64 ∧
      ((compute_sha256 uni_id 0 nonce).2).data.all isLowerHexChar = true) ∧
    (((compute_sha256 uni_id 100 nonce).2).length = 64 ∧
      ((compute_sha256 uni_id 100 nonce).2).data.all isLowerHexChar = true) := by
  have hwidget : number_input requested = none := by
    simp only [number_input, ite_eq_right_iff]
    intro hin
    omega
  refine ⟨?_, ?_, by decide, by decide,
    ⟨sha256Hex_length _, sha256Hex_chars _⟩, ⟨sha256Hex_length _, sha256Hex_chars _⟩⟩
  · simp [commitPipeline, hwidget]
  · simp [pipelineBuilderCalls, commitPipeline, hwidget]

/-- Witness for C8 at the concrete out-of-range number 101. -/
theorem C8_number_bounds_witness :
    commitPipeline "u1" 101 "pw" "http://commit" (Except.error "down") = none ∧
    pipelineBuilderCalls "u1" 101 "pw" "http://commit" (Except.error "down") = [] ∧
    number_input 0 = some 0 ∧
    number_input 100 = some 100 ∧
    (((compute_sha256 "u1" 0 "pw").2).length = 64 ∧
      ((compute_sha256 "u1" 0 "pw").2).data.all isLowerHexChar = true) ∧
    (((compute_sha256 "u1" 100 "pw").2).length = 64 ∧
      ((compute_sha256 "u1" 100 "pw").2).data.all isLowerHexChar = true) :=
  C8_number_bounds "u1" "pw" "http://commit" 101 (Except.error "down") (by decide)

/-- C9: once validation and the URL check pass, the commit handler displays
the preimage and the commitment whatever the network outcome, including
ApiError and NetworkError runs, since they are rendered before the POST. -/
theorem C9_preimage_always_displayed (uni_id : String) (number : Int) (nonce url : String)
    (net : Except String HttpResponse)
    (hid : uni_id ≠ "") (hnonce : nonce ≠ "") (hurl : url ≠ "") :
    (compute_sha256 uni_id number nonce).1 ∈
      (commit_clicked uni_id number nonce url net).displayed ∧
    (compute_sha256 uni_id number nonce).2 ∈
      (commit_clicked uni_id number nonce url net).displayed := by
  cases net with
  | ok r =>
    by_cases hok : r.ok <;> simp [commit_clicked, hid, hnonce, hurl, hok]
  | error e =>
    simp [commit_clicked, hid, hnonce, hurl]

/-- Witness for C9 at a concrete NetworkError run. -/
theorem C9_preimage_always_displayed_witness :
    (compute_sha256 "u1" 7 "pw").1 ∈
      (commit_clicked "u1" 7 "pw" "http://commit" (Except.error "down")).displayed ∧
    (compute_sha256 "u1" 7 "pw").2 ∈
      (commit_clicked "u1" 7 "pw" "http://commit" (Except.error "down")).displayed :=
  C9_preimage_always_displayed "u1" 7 "pw" "http://commit" (Except.error "down")
    (by decide) (by decide) (by decide)

/-- C10: compute_sha256 is not injective in its input triple: the two
distinct triples given produce the same preimage a|1|2|n, hence the same
commitment, because the bar delimiter may occur inside identity or nonce. -/
theorem C10_not_injective :
    compute_sha256 "a|1" 2 "n" = compute_sha256 "a" 1 "2|n" ∧
    (compute_sha256 "a|1" 2 "n").1 = "a|1|2|n" ∧
    ¬ (("a|1", (2 : Int), "n") = ("a", (1 : Int), "2|n")) := by
  exact ⟨rfl, rfl, by decide⟩

end App
